import Mathlib

/-!
Verification of the Brainly backend core: the authentication and
shareable-link subsystem (signup/signin handlers, the JWT bearer
middleware, the share-link registry and the public share resolver),
shallowly embedded from the TypeScript sources
(`week-16-second-brain/src/middleware.ts`, `week-16-second-brain/src/db.ts`,
the config module and the express route handlers).

JavaScript strings are modelled as lists of characters; MongoDB ObjectIds
as natural numbers; the document store as explicit in-memory lists threaded
through each handler.
-/

/-- JavaScript strings, modelled as lists of characters. -/
abbrev Str := List Char

/-! ## Token Service: model of the `jsonwebtoken` library

`jwt.sign(payload, secret)` produces a token whose verification succeeds
exactly under the same secret and recovers the payload; `jwt.verify` on
anything else throws (modelled as `none`).  The token is a concrete string
so that the middleware's header string manipulation applies to it:
the secret is length-prefixed in unary, followed by a marker and the
payload encoding. -/

/-- Decoded JWT payload: `jwt.verify` can return a bare string or a
structured `JwtPayload` object, whose `id` field may be absent. -/
inductive Decoded where
  | str (s : Str)
  | obj (id : Option Nat)
deriving DecidableEq

/-- Encoding of a payload into the token string. -/
def payloadEnc : Decoded → Str
  | .str s => 's' :: s
  | .obj none => ['o']
  | .obj (some n) => 'i' :: List.replicate n '1'

/-- Decoding of a payload from the tail of a token string. -/
def decodePayload : Str → Option Decoded
  | [] => none
  | c :: rest =>
    if c = 's' then some (.str rest)
    else if c = 'o' then (if rest = [] then some (.obj none) else none)
    else if c = 'i' then (if rest.all (· = '1') then some (.obj (some rest.length)) else none)
    else none

/-- Reads a unary length field `1…1|` off the front of a token string. -/
def readLen : Str → Option (Nat × Str)
  | [] => none
  | c :: rest =>
    if c = '|' then some (0, rest)
    else if c = '1' then (readLen rest).map (fun p => (p.1 + 1, p.2))
    else none

/-- Model of `jwt.sign(payload, secret)` (no expiry is set, matching the code). -/
def jwtSign (p : Decoded) (secret : Str) : Str :=
  List.replicate secret.length '1' ++ '|' :: (secret ++ payloadEnc p)

/-- Model of `jwt.verify(token, secret)`: `none` models the thrown
verification error. -/
def jwtVerify (token : Str) (secret : Str) : Option Decoded :=
  match readLen token with
  | none => none
  | some (n, r) => if r.take n = secret then decodePayload (r.drop n) else none

/-! ## Configuration (`config.ts`)

`JWT_PASSWORD = process.env.JWT_SECRET || "fallback-secret-for-dev-only"`:
the environment variable is absent (`none`) or a string, and the JS `||`
takes the fallback on any falsy value (absent or empty string). -/

/-- Value of the `JWT_PASSWORD` constant as a function of the
`JWT_SECRET` environment variable. -/
def JWT_PASSWORD (env : Option Str) : Str :=
  match env with
  | none => "fallback-secret-for-dev-only".toList
  | some s => if s = [] then "fallback-secret-for-dev-only".toList else s

/-! ## Auth Gate (`middleware.ts`, `userMiddleware`) -/

/-- Outcome of the middleware: either `next()` is called with `req.userId`
set (possibly to `undefined`, i.e. `none`), or the request is rejected
with an HTTP status and JSON message. -/
inductive AuthOutcome where
  | proceed (userId : Option Nat)
  | reject (status : Nat) (message : Str)
deriving DecidableEq

/-- The literal `"Bearer "` checked and stripped by the middleware. -/
def bearerTag : Str := "Bearer ".toList

/-- Token extraction from the Authorization header:
`header.startsWith("Bearer ") ? header.slice(7) : header`. -/
def extractToken (header : Str) : Str :=
  if bearerTag.isPrefixOf header then header.drop 7 else header

/-- The `userMiddleware` of `middleware.ts`, parametric in the
`JWT_PASSWORD` value it imports from the config.  The header is `none`
when the `authorization` header is absent; JS `!header` is also true for
the empty string. -/
def userMiddleware (jwtPassword : Str) (header : Option Str) : AuthOutcome :=
  match header with
  | none => .reject 403 "Authorization header missing".toList
  | some h =>
    if h = [] then .reject 403 "Authorization header missing".toList
    else
      let token := extractToken h
      if jwtPassword = [] then .reject 500 "Server configuration error".toList
      else
        match jwtVerify token jwtPassword with
        | none => .reject 403 "Invalid token".toList
        | some (.str _) => .reject 403 "You are not logged in".toList
        | some (.obj id) => .proceed id

/-! ## Data model (`db.ts`) -/

/-- A document of `UserModel`: `username` carries a unique index. -/
structure User where
  _id : Nat
  username : Str
  password : Str
deriving DecidableEq

/-- A document of `ContentModel` (schema fields: `title`, `link`, `tags`,
`type`, `userId`). -/
structure Content where
  _id : Nat
  title : Str
  link : Str
  type : Str
  tags : List Nat
  userId : Nat
deriving DecidableEq

/-- A document of `LinkModel` (`Links` collection): `userId` carries a
unique index. -/
structure ShareLink where
  userId : Nat
  hash : Str
deriving DecidableEq

/-- The document store plus the id/randomness supplies: `nextId` models
the fresh ObjectId source, `seed` the PRNG state consumed by `random`. -/
structure DB where
  users : List User
  contents : List Content
  links : List ShareLink
  nextId : Nat
  seed : Nat
deriving DecidableEq

/-- Alphanumeric alphabet for share-link hashes. -/
def alphanum : Str :=
  "ABCDEFGHIJKLMNOPQRSTUVWXYZabcdefghijklmnopqrstuvwxyz0123456789".toList

/-- Modelled from the spec: the `random` helper of `utils.ts` is not among
the sources; the spec describes it as generating a fixed-length
alphanumeric hash.  Modelled as a deterministic function of the PRNG
state `seed`. -/
def random (len : Nat) (seed : Nat) : Str :=
  (List.range len).map (fun i => alphanum.getD ((seed / 62 ^ i) % 62) 'a')

/-! ## Route handlers (express app)

Each handler is a function of the store state and its request data,
returning the HTTP response together with the new store state. -/

/-- Response of the signup handler: HTTP status and JSON `message`. -/
structure MsgResp where
  status : Nat
  message : Str
deriving DecidableEq

/-- The `POST /api/v1/signup` handler: `UserModel.create` throws when the
unique index on `username` is violated, which the `catch` turns into
HTTP 411 `"User already exists"`; otherwise a fresh user document is
inserted and the handler answers 200 `"User signed up"`. -/
def signup (db : DB) (username password : Str) : MsgResp × DB :=
  if db.users.any (fun u => u.username = username) then
    (⟨411, "User already exists".toList⟩, db)
  else
    (⟨200, "User signed up".toList⟩,
      { db with
        users := db.users ++ [⟨db.nextId, username, password⟩],
        nextId := db.nextId + 1 })

/-- Response of the signin handler: a 200 `{token}` or an error status
with a message. -/
inductive SigninResp where
  | token (t : Str)
  | err (status : Nat) (message : Str)
deriving DecidableEq

/-- The `POST /api/v1/signin` handler: `UserModel.findOne({username,
password})`, then `jwt.sign({id: existingUser._id}, JWT_PASSWORD)` on a
match, else 403 `"Incorrrect credentials"` (sic). -/
def signin (secret : Str) (db : DB) (username password : Str) : SigninResp :=
  match db.users.find? (fun u => u.username = username && u.password = password) with
  | some existingUser => .token (jwtSign (.obj (some existingUser._id)) secret)
  | none => .err 403 "Incorrrect credentials".toList

/-! ## Delete-content handler (`DELETE /api/v1/content`)

`ContentModel.deleteMany({contentId, userId: req.userId})` filters
documents by a field literally named `contentId`; the match semantics of
the store are embedded through a field-lookup function over the schema
fields of `Content`. -/

/-- A stored field value: an ObjectId, a string, or a list of ObjectIds. -/
inductive Val where
  | oid (n : Nat)
  | str (s : Str)
  | oidList (l : List Nat)
deriving DecidableEq

/-- Field lookup on a `Content` document, following `ContentSchema` of
`db.ts` (fields `title`, `link`, `tags`, `type`, `userId`, plus `_id`);
any other field name is absent. -/
def Content.getField (c : Content) (f : Str) : Option Val :=
  if f = "_id".toList then some (.oid c._id)
  else if f = "title".toList then some (.str c.title)
  else if f = "link".toList then some (.str c.link)
  else if f = "type".toList then some (.str c.type)
  else if f = "tags".toList then some (.oidList c.tags)
  else if f = "userId".toList then some (.oid c.userId)
  else none

/-- Whether a document matches the `deleteMany` filter
`{contentId, userId}`: equality on the `contentId` field and on the
`userId` field; an `undefined` `req.userId` is stripped from the filter
by the store driver. -/
def deleteFilterMatches (c : Content) (contentId : Nat) (userId : Option Nat) : Bool :=
  (c.getField "contentId".toList == some (.oid contentId)) &&
    (match userId with
     | some u => c.getField "userId".toList == some (.oid u)
     | none => true)

/-- The `DELETE /api/v1/content` handler: `deleteMany` with the filter
above, then unconditionally 200 `{message: "Deleted"}`. -/
def deleteContent (db : DB) (userId : Option Nat) (contentId : Nat) : MsgResp × DB :=
  (⟨200, "Deleted".toList⟩,
    { db with contents := db.contents.filter (fun c => !deleteFilterMatches c contentId userId) })

/-! ## Share-link registry (`POST /api/v1/brain/share`) -/

/-- Response of the share handler: a 200 `{hash}` (enable branch) or a
200 `{message}` (disable branch). -/
inductive ShareResp where
  | hash (h : Str)
  | msg (m : Str)
deriving DecidableEq

/-- `LinkModel.deleteOne({userId})`: removes the first matching document,
if any. -/
def deleteOneByUser : List ShareLink → Nat → List ShareLink
  | [], _ => []
  | l :: ls, u => if l.userId = u then ls else l :: deleteOneByUser ls u

/-- The `POST /api/v1/brain/share` handler for an authenticated user.
Enable branch: return the hash of an existing `Links` document for
`userId` unchanged, else persist `{userId, hash: random(10)}` and return
the new hash.  Disable branch: `deleteOne({userId})` and answer
`"Removed link"`. -/
def shareBrain (db : DB) (userId : Nat) (share : Bool) : ShareResp × DB :=
  if share then
    match db.links.find? (fun l => l.userId = userId) with
    | some existingLink => (.hash existingLink.hash, db)
    | none =>
      let h := random 10 db.seed
      (.hash h, { db with links := db.links ++ [⟨userId, h⟩], seed := db.seed + 1 })
  else
    (.msg "Removed link".toList, { db with links := deleteOneByUser db.links userId })

/-! ## Public share resolver (`GET /api/v1/brain/:shareLink`) -/

/-- Response of the resolver: 200 `{username, content}` or an error
status with a message. -/
inductive ResolveResp where
  | ok (username : Str) (content : List Content)
  | err (status : Nat) (message : Str)
deriving DecidableEq

/-- The `GET /api/v1/brain/:shareLink` handler: look up the `Links`
document by `hash` (411 `"Sorry incorrect input"` if none), fetch the
owner's content, fetch the owning user (411 `"user not found, error
should ideally not happen"` if absent), else 200. -/
def resolveBrain (db : DB) (hash : Str) : ResolveResp :=
  match db.links.find? (fun l => l.hash = hash) with
  | none => .err 411 "Sorry incorrect input".toList
  | some link =>
    let content := db.contents.filter (fun c => c.userId = link.userId)
    match db.users.find? (fun u => u._id = link.userId) with
    | none => .err 411 "user not found, error should ideally not happen".toList
    | some user => .ok user.username content

/-- The invariant of the `Links` collection: at most one ShareLink per
user, i.e. pairwise distinct `userId`s (enforced by the unique index on
`userId` in `LinkSchema`). -/
def atMostOnePerUser (links : List ShareLink) : Prop :=
  links.Pairwise (fun a b => a.userId ≠ b.userId)

/-! ## Helper lemmas -/

theorem readLen_replicate (n : Nat) (s : Str) :
    readLen (List.replicate n '1' ++ '|' :: s) = some (n, s) := by
  induction n with
  | zero => simp [readLen]
  | succ k ih => simp [readLen, ih]

theorem decodePayload_payloadEnc (p : Decoded) :
    decodePayload (payloadEnc p) = some p := by
  cases p with
  | str s => simp [payloadEnc, decodePayload]
  | obj id =>
    cases id with
    | none => simp [payloadEnc, decodePayload]
    | some n =>
      simp [payloadEnc, decodePayload, List.all_eq_true, List.mem_replicate]

/-- Verification under the signing secret recovers the signed payload. -/
theorem jwtVerify_jwtSign (p : Decoded) (secret : Str) :
    jwtVerify (jwtSign p secret) secret = some p := by
  unfold jwtVerify jwtSign
  rw [readLen_replicate]
  simp [List.take_left, List.drop_left, decodePayload_payloadEnc]

theorem bearerTag_isPrefixOf (t : Str) :
    bearerTag.isPrefixOf (bearerTag ++ t) = true := by
  show List.isPrefixOf ['B', 'e', 'a', 'r', 'e', 'r', ' ']
    ('B' :: 'e' :: 'a' :: 'r' :: 'e' :: 'r' :: ' ' :: t) = true
  simp [List.isPrefixOf]

/-- The middleware strips a leading literal `"Bearer "` from the header. -/
theorem extractToken_bearerTag_append (t : Str) :
    extractToken (bearerTag ++ t) = t := by
  unfold extractToken
  rw [if_pos (bearerTag_isPrefixOf t)]
  exact List.drop_left' rfl

/-- The configured signing secret is never the empty string: `||` in
`config.ts` substitutes the fallback for any falsy value. -/
theorem JWT_PASSWORD_ne_nil (env : Option Str) : JWT_PASSWORD env ≠ [] := by
  unfold JWT_PASSWORD
  match env with
  | none => decide
  | some s =>
    by_cases h : s = []
    · simp [h]
    · simp [h]

/-- No `Content` document has a field named `contentId`. -/
theorem getField_contentId (c : Content) :
    c.getField "contentId".toList = none := rfl

/-- The `deleteMany` filter of the delete-content handler matches no
document. -/
theorem deleteFilterMatches_false (c : Content) (contentId : Nat) (userId : Option Nat) :
    deleteFilterMatches c contentId userId = false := by
  unfold deleteFilterMatches
  rw [getField_contentId]
  rfl

/-- Removing the one link of a user leaves only links of other users,
provided the at-most-one-per-user invariant held. -/
theorem mem_deleteOneByUser {links : List ShareLink} {u : Nat}
    (hp : links.Pairwise (fun a b => a.userId ≠ b.userId)) :
    ∀ l ∈ deleteOneByUser links u, l ∈ links ∧ l.userId ≠ u := by
  induction links with
  | nil => intro l hl; simp [deleteOneByUser] at hl
  | cons x ls ih =>
    intro l hl
    unfold deleteOneByUser at hl
    rcases List.pairwise_cons.mp hp with ⟨hx, htail⟩
    by_cases hxu : x.userId = u
    · rw [if_pos hxu] at hl
      refine ⟨List.mem_cons_of_mem _ hl, ?_⟩
      have := hx l hl
      rw [hxu] at this
      exact fun e => this e.symm
    · rw [if_neg hxu] at hl
      rcases List.mem_cons.mp hl with he | hm
      · exact ⟨by rw [he]; exact List.mem_cons_self _ _, by rw [he]; exact hxu⟩
      · rcases ih htail l hm with ⟨h1, h2⟩
        exact ⟨List.mem_cons_of_mem _ h1, h2⟩

/-- Deleting a link yields a sublist of the original links. -/
theorem deleteOneByUser_sublist (links : List ShareLink) (u : Nat) :
    (deleteOneByUser links u).Sublist links := by
  induction links with
  | nil => simp [deleteOneByUser]
  | cons x ls ih =>
    unfold deleteOneByUser
    by_cases hxu : x.userId = u
    · rw [if_pos hxu]; exact List.sublist_cons_of_sublist _ (List.Sublist.refl _)
    · rw [if_neg hxu]; exact List.Sublist.cons₂ _ ih

/-! ## Claim theorems -/

/-- C8: signup with a username that some existing user already holds
fails with HTTP 411 and message `"User already exists"`, whatever the
supplied password, and leaves the store unchanged. -/
theorem signup_duplicate_username (db : DB) (username password : Str)
    (h : ∃ u ∈ db.users, u.username = username) :
    signup db username password = (⟨411, "User already exists".toList⟩, db) := by
  unfold signup
  rw [if_pos]
  simpa [List.any_eq_true] using h

theorem signup_duplicate_username_witness :
    signup ⟨[⟨0, "alice".toList, "pw123456".toList⟩], [], [], 1, 0⟩
        "alice".toList "otherpw".toList
      = (⟨411, "User already exists".toList⟩,
         ⟨[⟨0, "alice".toList, "pw123456".toList⟩], [], [], 1, 0⟩) :=
  signup_duplicate_username _ _ _
    ⟨⟨0, "alice".toList, "pw123456".toList⟩, by decide, rfl⟩

/-- C10: the delete-content handler answers 200 `"Deleted"`
unconditionally and leaves the store unchanged, because its `deleteMany`
filter matches on a field named `contentId` that no `Content` document
possesses; in particular the document whose `_id` equals the supplied
`contentId` is never removed. -/
theorem deleteContent_removes_nothing (db : DB) (userId : Option Nat) (contentId : Nat) :
    deleteContent db userId contentId = (⟨200, "Deleted".toList⟩, db) ∧
    (∀ c : Content, c.getField "contentId".toList = none) ∧
    (∀ c ∈ db.contents, c._id = contentId →
      c ∈ (deleteContent db userId contentId).2.contents) := by
  have hdb : deleteContent db userId contentId = (⟨200, "Deleted".toList⟩, db) := by
    unfold deleteContent
    have : db.contents.filter (fun c => !deleteFilterMatches c contentId userId)
        = db.contents := by
      apply List.filter_eq_self.mpr
      intro c _
      rw [deleteFilterMatches_false]
      rfl
    rw [this]
  exact ⟨hdb, fun c => getField_contentId c, fun c hc _ => by rw [hdb]; exact hc⟩

theorem deleteContent_removes_nothing_witness :
    deleteContent ⟨[], [⟨9, "t".toList, "l".toList, "youtube".toList, [], 4⟩], [], 10, 0⟩
        (some 4) 9
      = (⟨200, "Deleted".toList⟩,
         ⟨[], [⟨9, "t".toList, "l".toList, "youtube".toList, [], 4⟩], [], 10, 0⟩) ∧
    (⟨9, "t".toList, "l".toList, "youtube".toList, [], 4⟩ : Content)
      ∈ (deleteContent
          ⟨[], [⟨9, "t".toList, "l".toList, "youtube".toList, [], 4⟩], [], 10, 0⟩
          (some 4) 9).2.contents :=
  ⟨(deleteContent_removes_nothing
      ⟨[], [⟨9, "t".toList, "l".toList, "youtube".toList, [], 4⟩], [], 10, 0⟩
      (some 4) 9).1,
   (deleteContent_removes_nothing
      ⟨[], [⟨9, "t".toList, "l".toList, "youtube".toList, [], 4⟩], [], 10, 0⟩
      (some 4) 9).2.2 _ (by decide) rfl⟩

/-- C5 counterexample: the claim fails for a token that itself starts
with `"Bearer "`: the gate extracts different values from the prefixed
and the bare header shape. -/
theorem extractToken_bearer_shaped_token_differs :
    extractToken (bearerTag ++ "Bearer x".toList) ≠ extractToken "Bearer x".toList := by
  decide

/-- C5 (amended): for every non-empty token that does not itself start
with `"Bearer "`, the gate extracts the same token from the
`"Bearer "`-prefixed and the bare header shape (namely the token
itself), and the middleware treats the two header shapes identically. -/
theorem extractToken_both_shapes (t : Str) (hne : t ≠ [])
    (hb : ¬ bearerTag.isPrefixOf t) :
    extractToken (bearerTag ++ t) = t ∧ extractToken t = t ∧
    ∀ secret, userMiddleware secret (some (bearerTag ++ t))
      = userMiddleware secret (some t) := by
  have h1 : extractToken (bearerTag ++ t) = t := extractToken_bearerTag_append t
  have h2 : extractToken t = t := by
    unfold extractToken
    rw [if_neg hb]
  refine ⟨h1, h2, fun secret => ?_⟩
  have hb2 : bearerTag ++ t ≠ [] := by simp [bearerTag]
  simp only [userMiddleware, if_neg hb2, if_neg hne, h1, h2]

theorem extractToken_both_shapes_witness :
    extractToken (bearerTag ++ "abc".toList) = "abc".toList ∧
    userMiddleware "key".toList (some (bearerTag ++ "abc".toList))
      = userMiddleware "key".toList (some "abc".toList) :=
  ⟨(extractToken_both_shapes "abc".toList (by decide) (by decide)).1,
   (extractToken_both_shapes "abc".toList (by decide) (by decide)).2.2 "key".toList⟩

/-- C3 counterexample: with the signing secret empty, a protected
request without an Authorization header is rejected with HTTP 403
(missing header), not HTTP 500, so the gate does not answer 500 on
every protected request. -/
theorem userMiddleware_missing_header_not_500 :
    userMiddleware [] none = .reject 403 "Authorization header missing".toList ∧
    userMiddleware [] none ≠ .reject 500 "Server configuration error".toList := by
  exact ⟨rfl, by decide⟩

/-- C3 (amended): with the signing secret empty (the falsy value checked
by the middleware), every protected request that carries a non-empty
Authorization header fails with HTTP 500 `"Server configuration
error"`, a failure distinct from the HTTP 403 `"Invalid token"` the
gate returns for a bad token under a configured secret. -/
theorem userMiddleware_empty_secret_500 (header : Str) (h : header ≠ []) :
    userMiddleware [] (some header) = .reject 500 "Server configuration error".toList ∧
    userMiddleware "secret".toList (some "garbage".toList)
      = .reject 403 "Invalid token".toList := by
  constructor
  · simp only [userMiddleware, if_neg h]
    rw [if_pos trivial]
  · decide

theorem userMiddleware_empty_secret_500_witness :
    userMiddleware [] (some "sometoken".toList)
      = .reject 500 "Server configuration error".toList :=
  (userMiddleware_empty_secret_500 "sometoken".toList (by decide)).1

/-- C2: when a `Links` document already exists for the user, enabling
sharing returns its hash unchanged and does not touch the store; in
particular two consecutive enable calls return the identical hash. -/
theorem shareBrain_enable_idempotent (db : DB) (u : Nat) :
    (∀ l₀, db.links.find? (fun l => l.userId = u) = some l₀ →
      shareBrain db u true = (.hash l₀.hash, db)) ∧
    (shareBrain (shareBrain db u true).2 u true).1 = (shareBrain db u true).1 := by
  constructor
  · intro l₀ hl
    unfold shareBrain
    simp [hl]
  · unfold shareBrain
    cases hf : db.links.find? (fun l => l.userId = u) with
    | some l₀ => simp [hf]
    | none =>
      simp only [hf, if_pos]
      rw [List.find?_append, hf]
      simp

theorem shareBrain_enable_idempotent_witness :
    shareBrain ⟨[], [], [⟨5, "abchash".toList⟩], 0, 0⟩ 5 true
      = (.hash "abchash".toList, ⟨[], [], [⟨5, "abchash".toList⟩], 0, 0⟩) :=
  (shareBrain_enable_idempotent ⟨[], [], [⟨5, "abchash".toList⟩], 0, 0⟩ 5).1
    ⟨5, "abchash".toList⟩ (by decide)

/-- C4: both branches of the share handler (enable and disable) preserve
the invariant that at most one `Links` document exists per user. -/
theorem shareBrain_preserves_atMostOne (db : DB) (u : Nat) (share : Bool)
    (h : atMostOnePerUser db.links) :
    atMostOnePerUser (shareBrain db u share).2.links := by
  unfold atMostOnePerUser at *
  unfold shareBrain
  cases share with
  | false =>
    simp only [if_neg]
    exact h.sublist (deleteOneByUser_sublist db.links u)
  | true =>
    cases hf : db.links.find? (fun l => l.userId = u) with
    | some l₀ => simpa [hf] using h
    | none =>
      simp only [hf, if_pos]
      rw [List.pairwise_append]
      refine ⟨h, List.pairwise_singleton _ _, ?_⟩
      intro a ha b hb
      rw [List.mem_singleton.mp hb]
      have := List.find?_eq_none.mp hf a ha
      simpa using this

theorem shareBrain_preserves_atMostOne_witness :
    atMostOnePerUser (shareBrain ⟨[], [], [], 0, 0⟩ 1 true).2.links :=
  shareBrain_preserves_atMostOne ⟨[], [], [], 0, 0⟩ 1 true List.Pairwise.nil

/-- C6: public resolution of a hash for which no `Links` document exists
fails with HTTP 411 `"Sorry incorrect input"`; in particular it does so
after the user's link was just deleted by the disable branch of the
share handler. -/
theorem resolveBrain_unknown_hash (db : DB) (h : Str) :
    ((∀ l ∈ db.links, l.hash ≠ h) →
      resolveBrain db h = .err 411 "Sorry incorrect input".toList) ∧
    (∀ u : Nat, atMostOnePerUser db.links →
      (∀ l ∈ db.links, l.hash = h → l.userId = u) →
      resolveBrain (shareBrain db u false).2 h
        = .err 411 "Sorry incorrect input".toList) := by
  have key : ∀ (d : DB), (∀ l ∈ d.links, l.hash ≠ h) →
      resolveBrain d h = .err 411 "Sorry incorrect input".toList := by
    intro d hd
    unfold resolveBrain
    have : d.links.find? (fun l => l.hash = h) = none :=
      List.find?_eq_none.mpr (by intro x hx; simpa using hd x hx)
    rw [this]
  refine ⟨key db, fun u hp hall => ?_⟩
  apply key
  intro l hl
  unfold shareBrain at hl
  simp only [if_neg] at hl
  rcases mem_deleteOneByUser hp l hl with ⟨hmem, hne⟩
  intro he
  exact hne (hall l hmem he)

theorem resolveBrain_unknown_hash_witness :
    resolveBrain (shareBrain ⟨[], [], [], 0, 0⟩ 3 false).2 "zz".toList
      = .err 411 "Sorry incorrect input".toList ∧
    resolveBrain ⟨[], [], [], 0, 0⟩ "zz".toList
      = .err 411 "Sorry incorrect input".toList :=
  ⟨(resolveBrain_unknown_hash ⟨[], [], [], 0, 0⟩ "zz".toList).2 3
      List.Pairwise.nil (by decide),
   (resolveBrain_unknown_hash ⟨[], [], [], 0, 0⟩ "zz".toList).1 (by decide)⟩

/-- C7: resolving a hash whose `Links` document points to a nonexistent
user fails with the integrity message `"user not found, error should
ideally not happen"`, a response distinct from the unknown-hash
response `"Sorry incorrect input"`. -/
theorem resolveBrain_dangling_user (db : DB) (h : Str) (link : ShareLink)
    (hl : db.links.find? (fun l => l.hash = h) = some link)
    (hu : ∀ u ∈ db.users, u._id ≠ link.userId) :
    resolveBrain db h
      = .err 411 "user not found, error should ideally not happen".toList ∧
    resolveBrain db h ≠ .err 411 "Sorry incorrect input".toList := by
  have hfind : db.users.find? (fun u => u._id = link.userId) = none :=
    List.find?_eq_none.mpr (by intro x hx; simpa using hu x hx)
  have heq : resolveBrain db h
      = .err 411 "user not found, error should ideally not happen".toList := by
    unfold resolveBrain
    rw [hl]
    simp only [hfind]
  refine ⟨heq, by rw [heq]; decide⟩

theorem resolveBrain_dangling_user_witness :
    resolveBrain ⟨[], [], [⟨7, "hhh".toList⟩], 0, 0⟩ "hhh".toList
      = .err 411 "user not found, error should ideally not happen".toList :=
  (resolveBrain_dangling_user ⟨[], [], [⟨7, "hhh".toList⟩], 0, 0⟩ "hhh".toList
    ⟨7, "hhh".toList⟩ (by decide) (by decide)).1

/-- C9: a request whose token verifies under the configured signing
secret and decodes to a structured payload is accepted by the
middleware even when the payload has no `id` field: `next()` is called
with `req.userId` undefined (`none`). -/
theorem userMiddleware_accepts_missing_id (env : Option Str) (header : Str)
    (hv : jwtVerify (extractToken header) (JWT_PASSWORD env) = some (.obj none)) :
    userMiddleware (JWT_PASSWORD env) (some header) = .proceed none := by
  have hh : header ≠ [] := by
    intro e
    rw [e] at hv
    have h0 : jwtVerify (extractToken []) (JWT_PASSWORD env) = none := rfl
    rw [h0] at hv
    exact Option.noConfusion hv
  simp only [userMiddleware, if_neg hh, if_neg (JWT_PASSWORD_ne_nil env), hv]

theorem userMiddleware_accepts_missing_id_witness :
    userMiddleware (JWT_PASSWORD none)
        (some (jwtSign (.obj none) (JWT_PASSWORD none))) = .proceed none :=
  userMiddleware_accepts_missing_id none (jwtSign (.obj none) (JWT_PASSWORD none))
    (by decide)

/-- C1: for a username no existing user holds, signup followed by signin
with the same pair returns a signed token, and a request presenting that
token in a `"Bearer "` Authorization header passes the middleware, which
attaches the new user's id to the request. -/
theorem signup_signin_token_accepted (env : Option Str) (db : DB)
    (username password : Str)
    (hfresh : ∀ u ∈ db.users, u.username ≠ username) :
    signin (JWT_PASSWORD env) (signup db username password).2 username password
      = .token (jwtSign (.obj (some db.nextId)) (JWT_PASSWORD env)) ∧
    userMiddleware (JWT_PASSWORD env)
        (some (bearerTag ++ jwtSign (.obj (some db.nextId)) (JWT_PASSWORD env)))
      = .proceed (some db.nextId) := by
  constructor
  · have hno : ¬ (db.users.any (fun u => u.username = username) = true) := by
      rw [List.any_eq_true]
      rintro ⟨u, hu, he⟩
      exact hfresh u hu (by simpa using he)
    unfold signin signup
    rw [if_neg hno]
    rw [List.find?_append]
    have h1 : db.users.find?
        (fun u => u.username = username && u.password = password) = none := by
      apply List.find?_eq_none.mpr
      intro u hu
      simp [hfresh u hu]
    rw [h1]
    simp
  · have hh : bearerTag ++ jwtSign (.obj (some db.nextId)) (JWT_PASSWORD env) ≠ [] := by
      simp [bearerTag]
    simp only [userMiddleware, if_neg hh, if_neg (JWT_PASSWORD_ne_nil env),
      extractToken_bearerTag_append, jwtVerify_jwtSign]

theorem signup_signin_token_accepted_witness :
    signin (JWT_PASSWORD none)
        (signup ⟨[], [], [], 0, 0⟩ "alice".toList "pw123456".toList).2
        "alice".toList "pw123456".toList
      = .token (jwtSign (.obj (some 0)) (JWT_PASSWORD none)) ∧
    userMiddleware (JWT_PASSWORD none)
        (some (bearerTag ++ jwtSign (.obj (some 0)) (JWT_PASSWORD none)))
      = .proceed (some 0) :=
  signup_signin_token_accepted none ⟨[], [], [], 0, 0⟩
    "alice".toList "pw123456".toList (by decide)
